import Mathlib

/-!
Verification of the bookScrapper repository: a shallow embedding of
`src/processing/processor.py` (the `BookProcessor` cleaning pipeline and
its handler) and `src/scrapping/scrapper.py` (the `BookScraper` crawl
loop, item extraction, URL resolution and detail-page retry loop),
together with theorems settling the specification's claims.

Conventions of the embedding:
- a pandas `NaN` / Python `None` cell is `Option.none`;
- `pd.to_numeric(..., errors='coerce')` is `parseDec : String → Option ℚ`,
  `none` standing for the `NaN` placeholder;
- the pandas DataFrame is a `List` of records, so row order is explicit;
- network and filesystem effects are environment parameters
  (`String → PageResult`, `Bool` write-success flags, `Except` reads).
-/

/-! ## String helpers (Python `in`, `str.lower`, slicing) -/

/-- `matchAt needle hay`: `needle` is a prefix of `hay` (char lists). -/
def matchAt : List Char → List Char → Bool
  | [], _ => true
  | _ :: _, [] => false
  | a :: as, b :: bs => a == b && matchAt as bs

/-- `hasSub needle hay`: `needle` occurs contiguously inside `hay`
(char-list form of Python's `needle in hay`). -/
def hasSub (needle : List Char) : List Char → Bool
  | [] => matchAt needle []
  | b :: bs => matchAt needle (b :: bs) || hasSub needle bs

/-- Python `needle in hay` on strings. -/
def strHasSub (needle hay : String) : Bool :=
  hasSub needle.toList hay.toList

/-- Python `str.lower()` (ASCII case folding, per character). -/
def strLower (s : String) : String :=
  ⟨s.toList.map Char.toLower⟩

/-- Python `str.replace(c, '')` for a single-character pattern: every
occurrence of the character is removed. -/
def removeChar (c : Char) (s : String) : String :=
  ⟨s.toList.filter (fun a => a ≠ c)⟩

/-! ## Decimal parsing (`pd.to_numeric(..., errors='coerce')`) -/

/-- Digit run to a natural number. -/
def digitsToNat (l : List Char) : Nat :=
  l.foldl (fun a c => a * 10 + (c.toNat - 48)) 0

/-- `parseDec s` models `pd.to_numeric(s, errors='coerce')` on text:
optional sign, a digit run with at most one decimal point, at least one
digit; anything else coerces to the not-a-number placeholder `none`. -/
def parseDec (s : String) : Option ℚ :=
  let l := s.toList
  let signed : Bool × List Char :=
    match l with
    | '-' :: t => (true, t)
    | '+' :: t => (false, t)
    | _ => (false, l)
  let intPart := signed.2.takeWhile (fun c => c ≠ '.')
  let rest := signed.2.dropWhile (fun c => c ≠ '.')
  let fracPart : Option (List Char) :=
    match rest with
    | [] => some []
    | _ :: t => if t.contains '.' then none else some t
  match fracPart with
  | none => none
  | some frac =>
    if intPart.all Char.isDigit ∧ frac.all Char.isDigit ∧
        (intPart ≠ [] ∨ frac ≠ []) then
      let mag : ℚ := mkRat (digitsToNat (intPart ++ frac)) (10 ^ frac.length)
      some (if signed.1 then -mag else mag)
    else
      none

/-! ## Data model: raw and cleaned records -/

/-- A row of the raw CSV as pandas reads it: every cell may be `NaN`.
Mirrors the columns written by `BookScraper`:
Title, Price, Rating, Availability, URL, Subcategory. -/
structure RawRecord where
  title : Option String
  price : Option String
  rating : Option String
  availability : Option String
  url : Option String
  subcategory : Option String
deriving Repr, DecidableEq

/-- A row of the DataFrame after `BookProcessor._clean_data`:
Price and Rating are numeric (`none` = the `NaN` placeholder for Price;
rows with non-numeric or out-of-range Rating were filtered out). -/
structure CleanedRecord where
  title : String
  price : Option ℚ
  rating : ℚ
  availability : String
  url : String
  subcategory : Option String
deriving Repr, DecidableEq

/-! ## `BookProcessor._clean_data` -/

/-- `df.dropna(subset=['Title','Price','Rating','Availability','URL'])`:
keep a row iff all five listed cells are present (Subcategory is not in
the subset). -/
def dropnaKeep (r : RawRecord) : Bool :=
  r.title.isSome && r.price.isSome && r.rating.isSome &&
    r.availability.isSome && r.url.isSome

/-- Intermediate row after the two numeric conversions:
`df['Price'] = pd.to_numeric(df['Price'].str.replace('£',''), errors='coerce')`
and `df['Rating'] = pd.to_numeric(df['Rating'], errors='coerce')`.
Fields are read with default `""`; after `dropnaKeep` they are present. -/
def toNumericRow (r : RawRecord) : CleanedRecord :=
  { title := r.title.getD ""
    price := parseDec (removeChar '£' (r.price.getD ""))
    rating := (parseDec (r.rating.getD "")).getD 0
    availability := r.availability.getD ""
    url := r.url.getD ""
    subcategory := r.subcategory }

/-- The Rating filter `df[(df['Rating'] >= 1) & (df['Rating'] <= 5)]`.
A `NaN` Rating compares false on both sides in pandas; in the embedding a
failed parse was mapped to the out-of-range sentinel `0` by
`toNumericRow`, which this filter likewise rejects. -/
def ratingKeep (r : RawRecord) : Bool :=
  match parseDec (r.rating.getD "") with
  | none => false
  | some q => decide (1 ≤ q) && decide (q ≤ 5)

/-- `'In Stock' if 'in stock' in str(x).lower() else 'Out of Stock'`. -/
def normAvail (s : String) : String :=
  if strHasSub "in stock" (strLower s) then "In Stock" else "Out of Stock"

/-- `BookProcessor._clean_data`, stage by stage: dropna on the five
critical columns, Price and Rating to numeric, Rating range filter,
Availability normalization. -/
def cleanData (l : List RawRecord) : List CleanedRecord :=
  let l1 := l.filter dropnaKeep
  let l2 := l1.map toNumericRow
  let l3 := (l1.zip l2).filter (fun p => ratingKeep p.1) |>.map (·.2)
  l3.map (fun r => { r with availability := normAvail r.availability })

/-- The record survives `_clean_data`: present critical fields and a
Rating that parses into `[1, 5]`. Price plays no part. -/
def survives (r : RawRecord) : Bool :=
  dropnaKeep r && ratingKeep r

/-- The whole per-row transformation `_clean_data` applies to a
surviving row. -/
def cleanRow (r : RawRecord) : CleanedRecord :=
  { toNumericRow r with availability := normAvail (r.availability.getD "") }

/-! ## The spec's four-record scenario -/

/-- Scenario row 1: valid throughout. -/
def book1 : RawRecord :=
  { title := some "Book1", price := some "10.00", rating := some "4"
    availability := some "in stock", url := some "u1", subcategory := none }

/-- Scenario row 2: Rating 6 is out of range. -/
def book2 : RawRecord :=
  { title := some "Book2", price := some "15.50", rating := some "6"
    availability := some "out of stock", url := some "u2", subcategory := none }

/-- Scenario row 3: Price "invalid" does not parse. -/
def book3 : RawRecord :=
  { title := some "Book3", price := some "invalid", rating := some "3"
    availability := some "in stock", url := some "u3", subcategory := none }

/-- Scenario row 4: Title and Availability are null. -/
def book4 : RawRecord :=
  { title := none, price := some "20.00", rating := some "2"
    availability := none, url := some "u4", subcategory := none }

/-- The spec's four-record scenario input, in order. -/
def scenarioInput : List RawRecord := [book1, book2, book3, book4]

/-- The cleaned Book1 row. -/
def book1Clean : CleanedRecord :=
  { title := "Book1", price := some 10, rating := 4
    availability := "In Stock", url := "u1", subcategory := none }

/-- The cleaned Book3 row: Price is the not-a-number placeholder. -/
def book3Clean : CleanedRecord :=
  { title := "Book3", price := none, rating := 3
    availability := "In Stock", url := "u3", subcategory := none }

/-- A raw record whose Rating cell is the non-integer text "2.5". -/
def bookHalf : RawRecord :=
  { title := some "BookH", price := some "9.99", rating := some "2.5"
    availability := some "In stock", url := some "u5", subcategory := none }

/-- The cleaned form of `bookHalf`: its Rating is the non-integer
rational 5/2 (denominator 2; a rational is an integer exactly when its
reduced denominator is 1), which passes the `[1,5]` range filter. -/
def bookHalfClean : CleanedRecord :=
  { title := "BookH", price := some (mkRat 999 100), rating := mkRat 5 2
    availability := "In Stock", url := "u5", subcategory := none }

/-- `cleanData` is filter-then-map: the staged pandas pipeline equals a
single pass keeping `survives` rows and transforming each with
`cleanRow`. -/
theorem cleanData_eq_filterMap (l : List RawRecord) :
    cleanData l = (l.filter survives).map cleanRow := by
  induction l with
  | nil => rfl
  | cons r t ih =>
    simp only [cleanData, List.filter_cons, survives, Bool.and_eq_true] at *
    by_cases hd : dropnaKeep r
    · simp only [hd, if_true, List.map_cons, List.zip_cons_cons, List.filter_cons]
      by_cases hr : ratingKeep r
      · simpa [hd, hr, cleanRow, toNumericRow] using ih
      · simpa [hd, hr] using ih
    · simpa [hd] using ih

/-- A surviving row has all five critical fields present. -/
theorem survives_isSome {r : RawRecord} (h : survives r = true) :
    r.title.isSome ∧ r.price.isSome ∧ r.rating.isSome ∧
      r.availability.isSome ∧ r.url.isSome := by
  have hd := (Bool.and_eq_true _ _ |>.mp h).1
  unfold dropnaKeep at hd
  simp only [Bool.and_eq_true] at hd
  exact ⟨hd.1.1.1.1, hd.1.1.1.2, hd.1.1.2, hd.1.2, hd.2⟩

/-- **C1** (counterexample): two failures of the claim at explicit
inputs. On the spec's four-record scenario the cleaned output is
`[Book1, Book3]`, not exactly `[Book1]`: Book3, whose Price failed to
parse, survives with the not-a-number placeholder, so the pipeline does
not retain only records whose Price parsed successfully. And the record
with Rating text "2.5" survives cleaning with the non-integer Rating 5/2
(numerator 5, reduced denominator 2), so the pipeline does not retain
only records whose Rating parsed as an integer. -/
theorem C1_counterexample :
    (cleanData scenarioInput = [book1Clean, book3Clean] ∧
        book3Clean.price = none ∧ cleanData scenarioInput ≠ [book1Clean]) ∧
      (cleanData [bookHalf] = [bookHalfClean] ∧
        bookHalfClean.rating.num = 5 ∧ bookHalfClean.rating.den = 2) := by
  refine ⟨⟨by decide, rfl, by decide⟩, by decide, by decide, by decide⟩

/-- **C1** (amended): the cleaning pipeline keeps exactly the records
whose five critical fields are present and whose Rating parses as a
number in `[1,5]` — integrality of the Rating is not enforced (the
Rating "2.5" record is retained) — and a Price parse failure does not
remove a record (it survives with the not-a-number placeholder); on the
scenario input the cleaned output is exactly the Book1 and Book3
records, both with Availability normalized to "In Stock". -/
theorem C1_cleaning_retention :
    (∀ l : List RawRecord, cleanData l = (l.filter survives).map cleanRow) ∧
      cleanData scenarioInput = [book1Clean, book3Clean] ∧
      book3Clean.price = none ∧ book1Clean.availability = "In Stock" ∧
      book3Clean.availability = "In Stock" ∧
      cleanData [bookHalf] = [bookHalfClean] :=
  ⟨cleanData_eq_filterMap, by decide, rfl, rfl, rfl, by decide⟩

/-- **C2** (counterexample): two failures of the claimed invariant at
explicit inputs. The cleaned Book3 record is in the cleaned scenario
output, yet its Price is not a non-negative numeric value — it is the
not-a-number placeholder. And the cleaned Rating-"2.5" record is in its
cleaned output, yet its Rating is not an integer: it is 5/2 (numerator
5, reduced denominator 2, and a rational is an integer exactly when its
reduced denominator is 1). -/
theorem C2_counterexample :
    (book3Clean ∈ cleanData scenarioInput ∧
        ¬ ∃ q : ℚ, book3Clean.price = some q ∧ 0 ≤ q) ∧
      (bookHalfClean ∈ cleanData [bookHalf] ∧
        bookHalfClean.rating.num = 5 ∧ bookHalfClean.rating.den = 2) := by
  refine ⟨⟨by decide, ?_⟩, by decide, by decide, by decide⟩
  rintro ⟨q, hq, -⟩
  exact Option.noConfusion hq

/-- **C2** (amended): every record of the cleaned dataset has Rating a
number in `[1,5]` — not necessarily an integer — and Availability
exactly "In Stock" or "Out of Stock"; Price, however, may be the
not-a-number placeholder (and is never checked for non-negativity). -/
theorem C2_cleaned_invariant (l : List RawRecord) (r : CleanedRecord)
    (h : r ∈ cleanData l) :
    (1 ≤ r.rating ∧ r.rating ≤ 5) ∧
      (r.availability = "In Stock" ∨ r.availability = "Out of Stock") := by
  rw [cleanData_eq_filterMap] at h
  obtain ⟨raw, hraw, rfl⟩ := List.mem_map.mp h
  have hs : survives raw = true := List.of_mem_filter hraw
  have hr := (Bool.and_eq_true _ _ |>.mp hs).2
  constructor
  · unfold ratingKeep at hr
    cases hq : parseDec (raw.rating.getD "") with
    | none => rw [hq] at hr; exact absurd hr (by simp)
    | some q =>
      rw [hq] at hr
      obtain ⟨h1, h2⟩ := Bool.and_eq_true _ _ |>.mp hr
      simp only [cleanRow, toNumericRow, hq, Option.getD_some]
      exact ⟨of_decide_eq_true h1, of_decide_eq_true h2⟩
  · simp only [cleanRow, normAvail]
    by_cases hc : strHasSub "in stock" (strLower (raw.availability.getD "")) = true
    · left; simp [hc]
    · right; simp [hc]

/-- Witness for `C2_cleaned_invariant` at the scenario input and its
first cleaned record. -/
theorem C2_cleaned_invariant_witness :
    (1 ≤ book1Clean.rating ∧ book1Clean.rating ≤ 5) ∧
      (book1Clean.availability = "In Stock" ∨
        book1Clean.availability = "Out of Stock") :=
  C2_cleaned_invariant scenarioInput book1Clean (by decide)

/-- **C10**: cleaning preserves the relative order of surviving records
and leaves Title and URL unchanged — the (Title, URL) projection of the
cleaned output is exactly the projection of the surviving input rows, a
subsequence of the input's projection (so no duplication or reorder). -/
theorem C10_order_and_frame (l : List RawRecord) :
    (cleanData l).map (fun r => (some r.title, some r.url))
        = (l.filter survives).map (fun r => (r.title, r.url)) ∧
      ((cleanData l).map (fun r => (some r.title, some r.url))).Sublist
        (l.map (fun r => (r.title, r.url))) := by
  have heq : (cleanData l).map (fun r => (some r.title, some r.url))
      = (l.filter survives).map (fun r => (r.title, r.url)) := by
    rw [cleanData_eq_filterMap, List.map_map]
    refine List.map_congr_left ?_
    intro r hrmem
    have hs : survives r = true := List.of_mem_filter hrmem
    obtain ⟨ht, -, -, -, hu⟩ := survives_isSome hs
    obtain ⟨t, ht⟩ := Option.isSome_iff_exists.mp ht
    obtain ⟨u, hu⟩ := Option.isSome_iff_exists.mp hu
    simp [Function.comp, cleanRow, toNumericRow, ht, hu]
  refine ⟨heq, ?_⟩
  rw [heq]
  exact (l.filter_sublist).map _

/-! ## `ScrapingConfig` (src/scrapping/config.py) -/

namespace ScrapingConfig

/-- Maximum number of retries for HTTP requests. -/
def MAX_RETRIES : Nat := 3

/-- Timeout for HTTP requests in seconds. -/
def REQUEST_TIMEOUT : Nat := 10

/-- Base URL for books to scrape. -/
def BASE_URL : String := "http://books.toscrape.com/"

end ScrapingConfig

/-- The numeric attributes `ScrapingConfig` actually defines; looking up
any other name on the class raises `AttributeError`, modelled as `none`.
In particular `MAX_PAGES`, read by `scrape_books`, is absent. -/
def configAttr : String → Option Nat
  | "MAX_RETRIES" => some ScrapingConfig.MAX_RETRIES
  | "REQUEST_TIMEOUT" => some ScrapingConfig.REQUEST_TIMEOUT
  | _ => none

/-! ## `BookScraper._extract_book_details`: price and URL -/

/-- The Price extraction of `_extract_book_details`:
`...find('p', class_='price_color').text[1:]`, the price cell's text with
its first character removed (the Python slice `[1:]` on the string's
characters). -/
def extractPrice (priceText : String) : String :=
  ⟨priceText.toList.drop 1⟩

/-- Python `s.startswith(needle)`. -/
def strStarts (needle s : String) : Bool :=
  matchAt needle.toList s.toList

/-- Python `s.endswith(needle)`. -/
def strEnds (needle s : String) : Bool :=
  matchAt needle.toList.reverse s.toList.reverse

/-- Everything up to and including the last '/' of a string (the
directory part of the base URI; empty when the string has no '/'). -/
def upToLastSlash (s : String) : String :=
  ⟨(s.toList.reverse.dropWhile (fun c => c ≠ '/')).reverse⟩

/-- Modelled from the spec: Python's `urllib.parse.urljoin` — standard
library code outside this repository — restricted to the shapes the
scraper feeds it: a base URI whose path contains a '/' and a reference
that is a plain relative path (no scheme, no leading '/', no remaining
dot-segments, the scraper having already stripped the leading "../").
The reference replaces everything after the last '/' of the base. -/
def urljoinRel (base rel : String) : String :=
  upToLastSlash base ++ rel

/-- The detail-URL resolution of `_extract_book_details`: an href that
starts with "http" is used as-is; otherwise a leading "../" is stripped
and the remainder joined to the base URL, prefixed with "catalogue/"
when the base URL does not already end with "/catalogue/". -/
def resolveProductUrl (baseUrl relUrl : String) : String :=
  if strStarts "http" relUrl then relUrl
  else
    let cleaned : String :=
      if strStarts "../" relUrl then ⟨relUrl.toList.drop 3⟩ else relUrl
    if strEnds "/catalogue/" baseUrl then urljoinRel baseUrl cleaned
    else urljoinRel baseUrl ("catalogue/" ++ cleaned)

/-- **C4** (counterexample): for the raw price text "£10.00" the
extracted Price field is "10.00" — the currency symbol is stripped by the
`[1:]` slice at the extraction stage, not preserved. -/
theorem C4_counterexample :
    extractPrice "£10.00" = "10.00" ∧ extractPrice "£10.00" ≠ "£10.00" := by
  refine ⟨by decide, by decide⟩

/-- **C4** (amended): the Price field is the raw price text with its
first character removed; the currency symbol therefore survives only
when preceded by another character (as with a mis-decoded "Â£"), and is
stripped when it is the text's first character. -/
theorem C4_price_slice :
    (∀ (c : Char) (t : List Char), extractPrice ⟨c :: t⟩ = ⟨t⟩) ∧
      (∀ t : List Char, extractPrice ⟨'Â' :: '£' :: t⟩ = ⟨'£' :: t⟩) ∧
      extractPrice "£10.00" = "10.00" :=
  ⟨fun _ _ => rfl, fun _ => rfl, by decide⟩

/-- **C8**: URL resolution — an href starting with "http" is used
as-is; otherwise a leading "../" is stripped and the remainder resolved
against the base (replacing everything after the base's last '/'),
with "catalogue/" inserted when the base does not already end in
"/catalogue/"; and the spec's concrete example resolves as required. -/
theorem C8_url_resolution :
    (∀ base rel : String, strStarts "http" rel = true →
        resolveProductUrl base rel = rel) ∧
      (∀ base rel : String, strStarts "http" rel = false →
        strStarts "../" rel = true → strEnds "/catalogue/" base = true →
        resolveProductUrl base rel = upToLastSlash base ++ ⟨rel.toList.drop 3⟩) ∧
      (∀ base rel : String, strStarts "http" rel = false →
        strStarts "../" rel = false → strEnds "/catalogue/" base = false →
        resolveProductUrl base rel = upToLastSlash base ++ ("catalogue/" ++ rel)) ∧
      resolveProductUrl "http://example.com/catalogue/" "../book_1/index.html" =
        "http://example.com/catalogue/book_1/index.html" := by
  refine ⟨?_, ?_, ?_, by decide⟩
  · intro base rel h
    simp [resolveProductUrl, h]
  · intro base rel h1 h2 h3
    simp [resolveProductUrl, h1, h2, h3, urljoinRel]
  · intro base rel h1 h2 h3
    simp [resolveProductUrl, h1, h2, h3, urljoinRel]

/-- Witness for `C8_url_resolution`: each hypothesis-bearing conjunct
instantiated at a concrete base and href. -/
theorem C8_url_resolution_witness :
    resolveProductUrl "http://b.example/" "http://a.example/x.html" =
        "http://a.example/x.html" ∧
      resolveProductUrl "http://b.example/catalogue/" "../b1/index.html" =
        upToLastSlash "http://b.example/catalogue/" ++
          ⟨("../b1/index.html" : String).toList.drop 3⟩ ∧
      resolveProductUrl "http://b.example/" "b1/index.html" =
        upToLastSlash "http://b.example/" ++ ("catalogue/" ++ "b1/index.html") :=
  ⟨C8_url_resolution.1 "http://b.example/" "http://a.example/x.html" (by decide),
    C8_url_resolution.2.1 "http://b.example/catalogue/" "../b1/index.html"
      (by decide) (by decide) (by decide),
    C8_url_resolution.2.2.1 "http://b.example/" "b1/index.html"
      (by decide) (by decide) (by decide)⟩

/-! ## `_extract_book_details`: the subcategory retry loop -/

/-- The parts of a parsed detail page that the two subcategory
strategies inspect: the breadcrumb items' texts when a breadcrumb list
exists, the texts of the category-navigation entries, and the active
navigation entry's text when one is marked active. -/
structure DetailDoc where
  breadcrumb : Option (List String)
  categoryNav : List String
  activeCategory : Option String
deriving Repr, DecidableEq

/-- Outcome of one detail-page fetch attempt as the retry loop sees it:
a `requests.RequestException` (transport error), or a parsed page. -/
inductive FetchOutcome where
  | transportError
  | page (d : DetailDoc)
deriving Repr, DecidableEq

/-- The two fallback strategies applied, in order, to one fetched
document, given the current `subcategory` value: the breadcrumb's third
entry's text when the breadcrumb has at least three entries, then — only
if the value is still "Unknown" — the active category-navigation entry's
text when the navigation list is non-empty and an active entry exists. -/
def applyStrategies (d : DetailDoc) (sub : String) : String :=
  let s1 :=
    match d.breadcrumb with
    | some items => if 3 ≤ items.length then (items.get? 2).getD sub else sub
    | none => sub
  if s1 = "Unknown" then
    match d.categoryNav, d.activeCategory with
    | _ :: _, some a => a
    | _, _ => s1
  else s1

/-- The bounded retry loop of `_extract_book_details`, driven by an
environment `env` giving each attempt's outcome (`env i` is the result
of the `i`-th `requests.get`). Returns the final subcategory label and
the number of fetch attempts performed. `fuel` is
`MAX_RETRIES - retries`. On a transport error with no retries left the
code re-raises; the enclosing `except` catches that and leaves the label
as it was, which coincides with exhausting the loop, so no separate case
is needed. -/
def resolveLoop (env : Nat → FetchOutcome) (sub : String) :
    Nat → Nat → String × Nat
  | 0, _ => (sub, 0)
  | fuel + 1, i =>
    match env i with
    | .transportError =>
      let r := resolveLoop env sub fuel (i + 1)
      (r.1, r.2 + 1)
    | .page d =>
      let s := applyStrategies d sub
      if s ≠ "Unknown" then (s, 1)
      else
        let r := resolveLoop env s fuel (i + 1)
        (r.1, r.2 + 1)

/-- Subcategory resolution for one item: the loop starts at label
"Unknown" with `MAX_RETRIES` attempts available, from attempt index 0. -/
def resolveSubcategory (env : Nat → FetchOutcome) : String × Nat :=
  resolveLoop env "Unknown" ScrapingConfig.MAX_RETRIES 0

/-- The retry loop performs at most `fuel` fetch attempts. -/
theorem resolveLoop_le (env : Nat → FetchOutcome) :
    ∀ (sub : String) (fuel i : Nat), (resolveLoop env sub fuel i).2 ≤ fuel := by
  intro sub fuel
  induction fuel generalizing sub with
  | zero => intro i; simp [resolveLoop]
  | succ n ih =>
    intro i
    simp only [resolveLoop]
    cases env i with
    | transportError => simpa using ih sub (i + 1)
    | page d =>
      by_cases h : applyStrategies d sub ≠ "Unknown"
      · simp [h]
      · simpa [h] using ih (applyStrategies d sub) (i + 1)

/-- When every attempt is a transport error, the loop spends exactly its
fuel, one attempt per failure. -/
theorem resolveLoop_allFail (env : Nat → FetchOutcome)
    (h : ∀ i, env i = .transportError) :
    ∀ (sub : String) (fuel i : Nat), (resolveLoop env sub fuel i).2 = fuel := by
  intro sub fuel
  induction fuel generalizing sub with
  | zero => intro i; simp [resolveLoop]
  | succ n ih =>
    intro i
    simp only [resolveLoop, h i]
    simpa using ih sub (i + 1)

/-- **C5**: for every behaviour of the network, subcategory resolution
terminates (it is a total function) having performed at most
`MAX_RETRIES` (3) fetch attempts; and when every attempt fails with a
transport error, the attempts number exactly `MAX_RETRIES` — each
transport failure counts as one attempt. -/
theorem C5_retry_bound (env : Nat → FetchOutcome) :
    (resolveSubcategory env).2 ≤ ScrapingConfig.MAX_RETRIES ∧
      ((∀ i, env i = .transportError) →
        (resolveSubcategory env).2 = ScrapingConfig.MAX_RETRIES) :=
  ⟨resolveLoop_le env "Unknown" ScrapingConfig.MAX_RETRIES 0,
    fun h => resolveLoop_allFail env h "Unknown" ScrapingConfig.MAX_RETRIES 0⟩

/-- Witness for `C5_retry_bound`: the always-failing network performs
exactly 3 = `MAX_RETRIES` attempts. -/
theorem C5_retry_bound_witness :
    (resolveSubcategory fun _ => .transportError).2 ≤ ScrapingConfig.MAX_RETRIES ∧
      (resolveSubcategory fun _ => .transportError).2 = ScrapingConfig.MAX_RETRIES :=
  ⟨(C5_retry_bound fun _ => .transportError).1,
    (C5_retry_bound fun _ => .transportError).2 fun _ => rfl⟩

/-! ## `BookScraper.scrape_books`: pagination and persistence -/

/-- Outcome of one listing-page fetch in `scrape_books`: a transport
error or non-success status (`raise_for_status`), or the parsed page
with its `product_pod` entries and its "next" link (if present),
already resolved against the current page URL. `β` is the type of a
parsed listing entry. -/
inductive PageResult (β : Type) where
  | fetchError
  | page (books : List β) (next : Option String)

/-- Why the pagination loop stopped. -/
inductive StopReason where
  | ceiling
  | noNext
  | fetchFail
deriving Repr, DecidableEq

/-- The entries of a fetch outcome (none on a failed fetch). -/
def pageEntries {β : Type} : PageResult β → List β
  | .fetchError => []
  | .page books _ => books

/-- The pagination loop of `scrape_books`
(`while page_url and page_count < ScrapingConfig.MAX_PAGES`), with
`fuel` the number of pages the ceiling still allows
(`MAX_PAGES - page_count`). `ex` is `_extract_book_details` for one
entry (`none` when extraction of that entry fails) and `env` the fetch
environment. Returns the accumulated records, the listing URLs fetched
in order, and why the loop stopped: a failed fetch breaks immediately,
a page's entries are all extracted before its next link is considered,
and the next link is followed only while fuel remains. -/
def crawlLoop {β : Type} (ex : β → Option RawRecord)
    (env : String → PageResult β) :
    Nat → String → List RawRecord × List String × StopReason
  | 0, _ => ([], [], .ceiling)
  | fuel + 1, url =>
    match env url with
    | .fetchError => ([], [url], .fetchFail)
    | .page books next =>
      let recs := books.filterMap ex
      match next with
      | none => (recs, [url], .noNext)
      | some n =>
        let r := crawlLoop ex env fuel n
        (recs ++ r.1, url :: r.2.1, r.2.2)

/-- The CSV-writing tail of `scrape_books`: the accumulated rows are
handed to the raw-record store (header from the first record's fields,
nothing but an empty file when there are no rows); the CSV path is
returned on success and `None` on a write error. The records written
are carried alongside the path. -/
def writeRawStore (writeOk : Bool) (records : List RawRecord) :
    Option (String × List RawRecord) :=
  if writeOk then some ("raw_data/books_data.csv", records) else none

/-- `scrape_books` for a given page ceiling: run the pagination loop
from the base URL, then write whatever was accumulated — the write
happens the same way whether the loop ended normally or broke on a
failed fetch. -/
def scrapeBooks {β : Type} (ex : β → Option RawRecord)
    (env : String → PageResult β) (writeOk : Bool)
    (maxPages : Nat) (baseUrl : String) :
    Option (String × List RawRecord) :=
  writeRawStore writeOk (crawlLoop ex env maxPages baseUrl).1

/-- The loop fetches at most `fuel` pages. -/
theorem crawlLoop_fetched_le {β : Type} (ex : β → Option RawRecord)
    (env : String → PageResult β) :
    ∀ (fuel : Nat) (url : String),
      ((crawlLoop ex env fuel url).2.1).length ≤ fuel := by
  intro fuel
  induction fuel with
  | zero => intro url; simp [crawlLoop]
  | succ n ih =>
    intro url
    simp only [crawlLoop]
    cases env url with
    | fetchError => simp
    | page books next =>
      cases next with
      | none => simp
      | some m => simpa using ih m

/-- When the loop stops at the ceiling it has fetched exactly `fuel`
pages. -/
theorem crawlLoop_ceiling_exact {β : Type} (ex : β → Option RawRecord)
    (env : String → PageResult β) :
    ∀ (fuel : Nat) (url : String),
      (crawlLoop ex env fuel url).2.2 = .ceiling →
        ((crawlLoop ex env fuel url).2.1).length = fuel := by
  intro fuel
  induction fuel with
  | zero => intro url _; simp [crawlLoop]
  | succ n ih =>
    intro url
    simp only [crawlLoop]
    cases env url with
    | fetchError => intro h; simp at h
    | page books next =>
      cases next with
      | none => intro h; simp at h
      | some m =>
        intro h
        dsimp only at h ⊢
        simp [ih m h]

/-- The accumulated records are exactly the per-page extractions of the
fetched pages, page by page in fetch order, every entry of every fetched
page passed to the extractor (a failed fetch contributes no entries). -/
theorem crawlLoop_records {β : Type} (ex : β → Option RawRecord)
    (env : String → PageResult β) :
    ∀ (fuel : Nat) (url : String),
      (crawlLoop ex env fuel url).1 =
        ((crawlLoop ex env fuel url).2.1).flatMap
          (fun u => (pageEntries (env u)).filterMap ex) := by
  intro fuel
  induction fuel with
  | zero => intro url; simp [crawlLoop]
  | succ n ih =>
    intro url
    simp only [crawlLoop]
    cases henv : env url with
    | fetchError => simp [pageEntries, henv]
    | page books next =>
      cases next with
      | none => simp [pageEntries, henv]
      | some m => simp [pageEntries, henv, ih m]

/-- When no fetch fails, the loop stops only at the ceiling or for want
of a next link. -/
theorem crawlLoop_stop_success {β : Type} (ex : β → Option RawRecord)
    (env : String → PageResult β) (h : ∀ u, env u ≠ .fetchError) :
    ∀ (fuel : Nat) (url : String),
      (crawlLoop ex env fuel url).2.2 = .ceiling ∨
        (crawlLoop ex env fuel url).2.2 = .noNext := by
  intro fuel
  induction fuel with
  | zero => intro url; left; rfl
  | succ n ih =>
    intro url
    simp only [crawlLoop]
    cases henv : env url with
    | fetchError => exact absurd henv (h url)
    | page books next =>
      cases next with
      | none => right; rfl
      | some m => simpa using ih m

/-- When the loop stops on a failed fetch, the failing page is the last
one fetched — fetched once, with no retry — every earlier fetch
succeeded, and the accumulated records are exactly the extractions of
the earlier, fully processed pages. -/
theorem crawlLoop_fetchFail {β : Type} (ex : β → Option RawRecord)
    (env : String → PageResult β) :
    ∀ (fuel : Nat) (url : String),
      (crawlLoop ex env fuel url).2.2 = .fetchFail →
        (∃ u, ((crawlLoop ex env fuel url).2.1).getLast? = some u ∧
            env u = .fetchError) ∧
          (∀ u ∈ ((crawlLoop ex env fuel url).2.1).dropLast,
            env u ≠ .fetchError) ∧
          (crawlLoop ex env fuel url).1 =
            (((crawlLoop ex env fuel url).2.1).dropLast).flatMap
              (fun u => (pageEntries (env u)).filterMap ex) := by
  intro fuel
  induction fuel with
  | zero => intro url h; exact absurd h (by simp [crawlLoop])
  | succ n ih =>
    intro url
    simp only [crawlLoop]
    cases henv : env url with
    | fetchError =>
      intro _
      exact ⟨⟨url, rfl, henv⟩, by simp, by simp⟩
    | page books next =>
      cases next with
      | none => intro h; simp at h
      | some m =>
        intro h
        dsimp only at h ⊢
        obtain ⟨⟨u, hlast, hu⟩, hall, hrec⟩ := ih m h
        cases htl : (crawlLoop ex env n m).2.1 with
        | nil => rw [htl] at hlast; simp at hlast
        | cons b t =>
          rw [htl] at hlast hrec
          refine ⟨⟨u, ?_, hu⟩, ?_, ?_⟩
          · rw [List.getLast?_cons_cons]; exact hlast
          · intro v hv
            rw [List.dropLast_cons₂] at hv
            rcases List.mem_cons.mp hv with rfl | hv
            · simp [henv]
            · exact hall v (by rw [htl]; exact hv)
          · rw [hrec, List.dropLast_cons₂, List.flatMap_cons]
            simp [henv, pageEntries]

/-- **C7**: when a listing-page fetch fails, the crawl loop aborts
there — the failing page is the last URL fetched, fetched exactly once
(no retry at this layer, every earlier fetch having succeeded) — and
`scrape_books` still hands every record accumulated from the previously
processed pages to the raw-record store, returning the CSV path. -/
theorem C7_fetch_failure_keeps_partial {β : Type} (ex : β → Option RawRecord)
    (env : String → PageResult β) (maxPages : Nat) (url : String)
    (h : (crawlLoop ex env maxPages url).2.2 = .fetchFail) :
    (∃ u, ((crawlLoop ex env maxPages url).2.1).getLast? = some u ∧
        env u = .fetchError) ∧
      (∀ u ∈ ((crawlLoop ex env maxPages url).2.1).dropLast,
        env u ≠ .fetchError) ∧
      scrapeBooks ex env true maxPages url =
        some ("raw_data/books_data.csv",
          (((crawlLoop ex env maxPages url).2.1).dropLast).flatMap
            (fun u => (pageEntries (env u)).filterMap ex)) := by
  obtain ⟨hlast, hall, hrec⟩ := crawlLoop_fetchFail ex env maxPages url h
  refine ⟨hlast, hall, ?_⟩
  rw [scrapeBooks, writeRawStore, if_pos rfl, hrec]

/-- Witness for `C7_fetch_failure_keeps_partial`: page "a" yields two
entries and points to page "b", whose fetch fails; the two records from
page "a" are still written. -/
theorem C7_fetch_failure_keeps_partial_witness :
    (∃ u, ((crawlLoop (fun _ : Unit => some book1)
        (fun u => if u = "a" then PageResult.page [(), ()] (some "b")
          else PageResult.fetchError) 5 "a").2.1).getLast? = some u ∧
        (fun u => if u = "a" then PageResult.page [(), ()] (some "b")
          else PageResult.fetchError) u = PageResult.fetchError) ∧
      (∀ u ∈ ((crawlLoop (fun _ : Unit => some book1)
        (fun u => if u = "a" then PageResult.page [(), ()] (some "b")
          else PageResult.fetchError) 5 "a").2.1).dropLast,
        (fun u => if u = "a" then PageResult.page [(), ()] (some "b")
          else PageResult.fetchError) u ≠ PageResult.fetchError) ∧
      scrapeBooks (fun _ : Unit => some book1)
        (fun u => if u = "a" then PageResult.page [(), ()] (some "b")
          else PageResult.fetchError) true 5 "a" =
        some ("raw_data/books_data.csv",
          (((crawlLoop (fun _ : Unit => some book1)
            (fun u => if u = "a" then PageResult.page [(), ()] (some "b")
              else PageResult.fetchError) 5 "a").2.1).dropLast).flatMap
            (fun u => (pageEntries ((fun u => if u = "a" then
              PageResult.page [(), ()] (some "b")
              else PageResult.fetchError) u)).filterMap
                (fun _ : Unit => some book1))) :=
  C7_fetch_failure_keeps_partial (fun _ : Unit => some book1)
    (fun u => if u = "a" then PageResult.page [(), ()] (some "b")
      else PageResult.fetchError) 5 "a" (by decide)

/-- **C6**: the crawl loop never fetches more listing pages than the
ceiling allows; stopping at the ceiling means exactly the ceiling's
worth of pages was fetched; the accumulated records are the full
per-page extractions of every fetched page (each entry passed to the
extractor before the loop can move on or stop); and when no fetch
fails, the loop stops only because no next link is present or the
ceiling is reached. -/
theorem C6_pagination {β : Type} (ex : β → Option RawRecord)
    (env : String → PageResult β) (maxPages : Nat) (url : String) :
    ((crawlLoop ex env maxPages url).2.1).length ≤ maxPages ∧
      ((crawlLoop ex env maxPages url).2.2 = .ceiling →
        ((crawlLoop ex env maxPages url).2.1).length = maxPages) ∧
      (crawlLoop ex env maxPages url).1 =
        ((crawlLoop ex env maxPages url).2.1).flatMap
          (fun u => (pageEntries (env u)).filterMap ex) ∧
      ((∀ u, env u ≠ .fetchError) →
        (crawlLoop ex env maxPages url).2.2 = .ceiling ∨
          (crawlLoop ex env maxPages url).2.2 = .noNext) :=
  ⟨crawlLoop_fetched_le ex env maxPages url,
    crawlLoop_ceiling_exact ex env maxPages url,
    crawlLoop_records ex env maxPages url,
    fun h => crawlLoop_stop_success ex env h maxPages url⟩

/-- Witness for `C6_pagination`: an environment whose every page has no
entries and a next link, with ceiling 2 — the loop fetches exactly two
pages and stops at the ceiling. -/
theorem C6_pagination_witness :
    ((crawlLoop (fun _ : Unit => (none : Option RawRecord))
        (fun _ => PageResult.page ([] : List Unit) (some "n")) 2 "a").2.1).length ≤ 2 ∧
      ((crawlLoop (fun _ : Unit => (none : Option RawRecord))
        (fun _ => PageResult.page ([] : List Unit) (some "n")) 2 "a").2.1).length = 2 ∧
      (crawlLoop (fun _ : Unit => (none : Option RawRecord))
        (fun _ => PageResult.page ([] : List Unit) (some "n")) 2 "a").1 =
        ((crawlLoop (fun _ : Unit => (none : Option RawRecord))
          (fun _ => PageResult.page ([] : List Unit) (some "n")) 2 "a").2.1).flatMap
          (fun u => (pageEntries ((fun _ => PageResult.page ([] : List Unit) (some "n")) u)).filterMap
            (fun _ : Unit => (none : Option RawRecord))) ∧
      ((crawlLoop (fun _ : Unit => (none : Option RawRecord))
        (fun _ => PageResult.page ([] : List Unit) (some "n")) 2 "a").2.2 = .ceiling ∨
        (crawlLoop (fun _ : Unit => (none : Option RawRecord))
          (fun _ => PageResult.page ([] : List Unit) (some "n")) 2 "a").2.2 = .noNext) := by
  have h := C6_pagination (fun _ : Unit => (none : Option RawRecord))
    (fun _ => PageResult.page ([] : List Unit) (some "n")) 2 "a"
  exact ⟨h.1, h.2.1 rfl, h.2.2.1,
    h.2.2.2 fun u hu => PageResult.noConfusion hu⟩

/-! ## `scrape_books` as shipped: the missing `MAX_PAGES` attribute -/

/-- `scrape_books` as shipped. The loop condition
`while page_url and page_count < ScrapingConfig.MAX_PAGES` first tests
the truthiness of `page_url` — an empty string is falsy, so the `and`
short-circuits — and only then reads `ScrapingConfig.MAX_PAGES`, a
lookup that raises `AttributeError` (`configAttr "MAX_PAGES" = none`);
the enclosing `except` catches it and the function returns `None`. With
a falsy base URL the loop body never runs and the (empty) record list is
still written to CSV; with any other base URL the attribute lookup fails
before the first fetch. -/
def scrapeBooksShipped {β : Type} (ex : β → Option RawRecord)
    (env : String → PageResult β) (writeOk : Bool) (baseUrl : String) :
    Option (String × List RawRecord) :=
  if baseUrl = "" then
    writeRawStore writeOk []
  else
    match configAttr "MAX_PAGES" with
    | none => none
    | some maxPages => scrapeBooks ex env writeOk maxPages baseUrl

/-- The scraping `lambdaHandler`'s status mapping:
`'statusCode': 200 if csv_path else 500`. -/
def scrapeStatus (result : Option (String × List RawRecord)) : Nat :=
  if result.isSome then 200 else 500

/-- **C9** (counterexample): with the empty base URL, Python's truthiness
test short-circuits the loop condition before `MAX_PAGES` is ever read,
so `scrape_books` skips the loop, writes an empty CSV, returns its path,
and the trigger reports status 200 — not the claimed universal failure. -/
theorem C9_counterexample :
    scrapeBooksShipped (fun _ : Unit => (none : Option RawRecord))
        (fun _ => PageResult.fetchError) true "" =
        some ("raw_data/books_data.csv", []) ∧
      scrapeStatus (scrapeBooksShipped (fun _ : Unit => (none : Option RawRecord))
        (fun _ => PageResult.fetchError) true "") = 200 :=
  ⟨rfl, rfl⟩

/-- **C9** (amended): for every non-empty (truthy) base URL, the first
evaluation of the loop condition reads the undefined
`ScrapingConfig.MAX_PAGES`; the `AttributeError` is caught internally,
`scrape_books` returns the failure value `None` before any page is
fetched, and the crawl trigger reports status 500. -/
theorem C9_missing_max_pages {β : Type} (ex : β → Option RawRecord)
    (env : String → PageResult β) (writeOk : Bool) (baseUrl : String)
    (h : baseUrl ≠ "") :
    scrapeBooksShipped ex env writeOk baseUrl = none ∧
      scrapeStatus (scrapeBooksShipped ex env writeOk baseUrl) = 500 := by
  have hs : scrapeBooksShipped ex env writeOk baseUrl = none := by
    rw [scrapeBooksShipped, if_neg h]
    rfl
  exact ⟨hs, by rw [scrapeStatus, hs]; rfl⟩

/-- Witness for `C9_missing_max_pages` at the configured
`BASE_URL` `http://books.toscrape.com/`. -/
theorem C9_missing_max_pages_witness :
    scrapeBooksShipped (fun _ : Unit => (none : Option RawRecord))
        (fun _ => PageResult.fetchError) true ScrapingConfig.BASE_URL = none ∧
      scrapeStatus (scrapeBooksShipped (fun _ : Unit => (none : Option RawRecord))
        (fun _ => PageResult.fetchError) true ScrapingConfig.BASE_URL) = 500 :=
  C9_missing_max_pages (fun _ : Unit => (none : Option RawRecord))
    (fun _ => PageResult.fetchError) true ScrapingConfig.BASE_URL (by decide)

/-! ## `BookProcessor.process_data` and the processing handler -/

/-- `BookProcessor.process_data`: read the source CSV (the read's result
is `src`), clean the rows, write the Parquet file. Any exception — an
unreadable source file or malformed input (`.error`), or a failed
write — is caught, logged and turned into the failure value `None`; on
success the destination path is returned, carried here together with
the cleaned rows written to it. -/
def processData (writeOk : Bool) (src : Except String (List RawRecord)) :
    Option (String × List CleanedRecord) :=
  match src with
  | .error _ => none
  | .ok rows =>
    if writeOk then some ("processed_data/books_data.parquet", cleanData rows)
    else none

/-- The structured result of the processing trigger. -/
structure ProcResponse where
  statusCode : Nat
  message : String
  parquetPath : Option String
deriving Repr, DecidableEq

/-- The processing `lambdaHandler`: when the raw-data configuration is
found it calls `process_data` and returns status 200 with the message
"Processing completed successfully" and whatever path `process_data`
produced — including `None` when `process_data` failed. Only an
exception raised before that call (a missing configuration) takes the
500 branch. -/
def procLambdaHandler (configFound : Bool) (writeOk : Bool)
    (src : Except String (List RawRecord)) : ProcResponse :=
  if configFound then
    { statusCode := 200
      message := "Processing completed successfully"
      parquetPath := (processData writeOk src).map (fun p => p.1) }
  else
    { statusCode := 500, message := "Processing failed", parquetPath := none }

/-- **C3**: when the cleaning stage's source file cannot be read,
`process_data` returns the failure value, yet the processing trigger
still answers with status 200, the success message and a null path — a
success result, not the structured failure the specification requires
(contrast the scraping handler's `200 if csv_path else 500`). -/
theorem C3_read_failure_reported_as_success :
    procLambdaHandler true true (.error "source CSV cannot be read") =
      { statusCode := 200
        message := "Processing completed successfully"
        parquetPath := none } :=
  rfl
